import Mathlib

/-!
Verification of the `my-market-analyst` repository core:
the KV cache client, the distributed lock, the report pipeline handler and
the Gemini model auto-selector from `api/analyze-company-news.ts`, and the
attention-score function from the frontend utility module.

JavaScript strings are modelled as Lean `String`; machine behaviour that the
claims depend on (string truthiness, `String.prototype.trim`, substring
`includes`, lowercasing) is modelled explicitly below.  All network effects
are modelled by explicit oracles (a key-value store state plus per-call-site
fault injections, and an upstream behaviour record for the Gemini API), and
each handler run returns, besides the HTTP-level outcome, a trace of which
external calls were performed.
-/

namespace MarketAnalyst

/-! ## JavaScript string primitives -/

/-- Whitespace test used to model the character class `\s` and `trim()`. -/
def isJsWs (c : Char) : Bool := c.isWhitespace

/-- Model of `String.prototype.trim`: strip leading and trailing whitespace. -/
def jsTrimList (l : List Char) : List Char :=
  List.rdropWhile isJsWs (List.dropWhile isJsWs l)

/-- Model of `s.trim()` on strings. -/
def jsTrim (s : String) : String := ⟨jsTrimList s.data⟩

/-- Model of `s.toLowerCase()`. -/
def jsToLower (s : String) : String := ⟨s.data.map Char.toLower⟩

/-- Is `needle` a contiguous sublist of `hay`?  (Executable.) -/
def isInfixChars (needle hay : List Char) : Bool :=
  hay.tails.any (fun t => needle.isPrefixOf t)

/-- Model of `hay.includes(needle)` for strings. -/
def jsIncludes (hay needle : String) : Bool := isInfixChars needle.data hay.data

/-- JS truthiness of an optional string (`undefined`/`null`/`""` are falsy). -/
def jsTruthy : Option String → Bool
  | none => false
  | some s => !s.isEmpty

/-! ## Attention score (frontend utility) -/

/-- The `KEYWORD_SCORES` table, in JS object insertion order. -/
def KEYWORD_SCORES : List (String × Nat) :=
  [("新製品", 10), ("DX", 10), ("提携", 10), ("課題", 5)]

/-- `calculateAttentionScore`: case-insensitively detect each keyword in the
text and sum the scores of the detected keywords. -/
def calculateAttentionScore (text : String) : Nat :=
  if text = "" then 0
  else
    let lowerCaseText := jsToLower text
    KEYWORD_SCORES.foldl
      (fun totalScore kv =>
        if jsIncludes lowerCaseText (jsToLower kv.1) then totalScore + kv.2
        else totalScore)
      0

/-- Whether keyword `k` is detected in `text` (case-insensitive containment). -/
def keywordMatches (text k : String) : Bool :=
  jsIncludes (jsToLower text) (jsToLower k)

/-! ## Key normalisation (`analyze-company-news.ts`) -/

/-- `normalizeCompanyKey`: lowercase and remove all whitespace
(`companyName.toLowerCase().replace(/\s+/g, '')`). -/
def normalizeCompanyKey (companyName : String) : String :=
  ⟨(companyName.data.map Char.toLower).filter (fun c => !isJsWs c)⟩

/-! ## KV (Upstash REST) client

The remote store is modelled as an association list from keys to string
values (`Store`); TTLs are not modelled (no time passes inside one run).
Each REST call site can be made to fail via a fault-injection parameter
(`Option String`: `some msg` means the call throws with message `msg`),
corresponding to a non-OK HTTP status or an `error` field in the payload. -/

/-- Environment (`process.env`) as a partial map from variable names. -/
abbrev Env : Type := String → Option String

structure KvConfig where
  url : String
  token : String
deriving DecidableEq

/-- `url.replace(/\/+$/, '')`. -/
def dropTrailingSlashes (s : String) : String :=
  ⟨List.rdropWhile (fun c => c = '/') s.data⟩

/-- `getKvConfig`: the three `??`-chained env fallbacks for URL and token;
returns `null` when either is missing or empty (JS falsiness of `""`). -/
def getKvConfig (env : Env) : Option KvConfig :=
  let url := (env "MARKETKV_KV_REST_API_URL").or
    ((env "KV_REST_API_URL").or (env "UPSTASH_REDIS_REST_URL"))
  let token := (env "MARKETKV_KV_REST_API_TOKEN").or
    ((env "KV_REST_API_TOKEN").or (env "UPSTASH_REDIS_REST_TOKEN"))
  match url, token with
  | some u, some t =>
    if u = "" || t = "" then none
    else some { url := dropTrailingSlashes u, token := t }
  | some _, none => none
  | none, _ => none

/-- The remote key-value store state. -/
abbrev Store : Type := List (String × String)

def lookupStore : Store → String → Option String
  | [], _ => none
  | e :: t, k => if e.1 = k then some e.2 else lookupStore t k

def eraseKey : Store → String → Store
  | [], _ => []
  | e :: t, k => if e.1 = k then eraseKey t k else e :: eraseKey t k

def insertKey (s : Store) (k v : String) : Store := (k, v) :: eraseKey s k

/-- `isRateLimitLike`: recognises Upstash rate-limit / archive error text. -/
def isRateLimitLike (msg : String) : Bool :=
  let m := jsToLower msg
  jsIncludes m "rate-limited" || jsIncludes m "max daily request" ||
    jsIncludes m "temporarily rate-limited"

/-- `kvGetString`: `null` when unconfigured; throws on a backend fault;
otherwise returns the stored string (or `null` when absent). -/
def kvGetString (env : Env) (fault : Option String) (store : Store)
    (key : String) : Except String (Option String) :=
  match getKvConfig env with
  | none => .ok none
  | some _ =>
    match fault with
    | some msg => .error msg
    | none => .ok (lookupStore store key)

/-- `kvSetEx`: no-op when unconfigured; throws on a backend fault; otherwise
`SETEX` overwrites the key.  The TTL argument is kept but (time not being
modelled) does not affect the store. -/
def kvSetEx (env : Env) (fault : Option String) (store : Store)
    (key value : String) (_ttlSeconds : Nat) : Except String Store :=
  match getKvConfig env with
  | none => .ok store
  | some _ =>
    match fault with
    | some msg => .error msg
    | none => .ok (insertKey store key value)

/-- `kvDel`: no-op when unconfigured; throws on a backend fault; otherwise
deletes the key. -/
def kvDel (env : Env) (fault : Option String) (store : Store)
    (key : String) : Except String Store :=
  match getKvConfig env with
  | none => .ok store
  | some _ =>
    match fault with
    | some msg => .error msg
    | none => .ok (eraseKey store key)

/-- `acquireLock`: `null` when unconfigured; throws on a backend fault;
otherwise `SET key token NX EX ttl` — succeeds (returning the fresh token
and the updated store) only if no value currently exists at `lockKey`.
The fresh random token is supplied as the `token` parameter. -/
def acquireLock (env : Env) (fault : Option String) (store : Store)
    (lockKey token : String) (_ttlSeconds : Nat) :
    Except String (Option String × Store) :=
  match getKvConfig env with
  | none => .ok (none, store)
  | some _ =>
    match fault with
    | some msg => .error msg
    | none =>
      match lookupStore store lockKey with
      | none => .ok (some token, insertKey store lockKey token)
      | some _ => .ok (none, store)

/-- `releaseLock`: read the current value, delete only if it equals the
caller's own token.  `getFault` (resp. `delFault`) injects a failure into the
embedded `kvGetString` (resp. `kvDel`) call. -/
def releaseLock (env : Env) (getFault delFault : Option String)
    (store : Store) (lockKey lockVal : String) : Except String Store :=
  match kvGetString env getFault store lockKey with
  | .error msg => .error msg
  | .ok current =>
    if current = some lockVal then kvDel env delFault store lockKey
    else .ok store

/-! ## Gemini model auto-selection

Upstream behaviour is an oracle (`Upstream`): per version namespace, the
result of `ListModels`, and per `(version, model)` pair, the outcome of the
raw generation HTTP call (`.error msg` models a thrown failure whose message
carries the HTTP status / error body; `.ok text` the extracted candidate
text, possibly blank).  Every function below also reports which models were
actually attempted, so "never tried twice / never tried further" claims are
about an explicit call trace. -/

inductive GeminiApiVersion where
  | v1beta
  | v1
deriving DecidableEq

def versionName : GeminiApiVersion → String
  | .v1beta => "v1beta"
  | .v1 => "v1"

structure GeminiModel where
  name : Option String
  supportedGenerationMethods : Option (List String)
deriving DecidableEq

/-- `shortModelName`: strip a leading `models/` (7 characters). -/
def shortModelName (fullName : String) : String :=
  if ("models/").data.isPrefixOf fullName.data then ⟨fullName.data.drop 7⟩
  else fullName

/-- `modelSupportsGenerateContent`: optimistic when the capability list is
absent or empty; otherwise require `generateContent` to be listed. -/
def modelSupportsGenerateContent (m : GeminiModel) : Bool :=
  match m.supportedGenerationMethods with
  | none => true
  | some methods =>
    if methods.length = 0 then true else methods.contains "generateContent"

/-- `isGeminiNotFoundOrUnsupported`: the "model not found / not supported"
error class, recognised from the error message text. -/
def isGeminiNotFoundOrUnsupported (errMsg : String) : Bool :=
  jsIncludes errMsg ": 404" || jsIncludes errMsg "\"code\": 404" ||
    jsIncludes errMsg "NOT_FOUND"

structure Upstream where
  listModels : GeminiApiVersion → Except String (List GeminiModel)
  genRaw : GeminiApiVersion → String → Except String String

/-- `generateContent` (per candidate): propagate an HTTP-level failure;
reject a blank extracted text as an error of its own. -/
def generateContentM (up : Upstream) (version : GeminiApiVersion)
    (model : String) : Except String String :=
  match up.genRaw version model with
  | .error msg => .error msg
  | .ok text =>
    if jsTrim text = "" then
      .error ("Gemini response is empty (" ++ versionName version ++ "/" ++
        model ++ ").")
    else .ok text

/-- The hardcoded preference list. -/
def preferredModels : List String :=
  ["gemini-2.5-flash", "gemini-2.0-flash", "gemini-2.0-flash-001",
   "gemini-2.0-flash-lite"]

/-- `available`: names of listed models, shortened, blank names dropped. -/
def availableOf (models : List GeminiModel) : List String :=
  (models.filterMap (fun m => m.name.map shortModelName)).filter
    (fun n => !(n = "" : Bool))

/-- `generateCapable`: shortened names of listed models that pass
`modelSupportsGenerateContent`. -/
def generateCapableOf (models : List GeminiModel) : List String :=
  models.filterMap (fun m =>
    match m.name with
    | some n =>
      if modelSupportsGenerateContent m then some (shortModelName n) else none
    | none => none)

/-- The two candidate-building loops: preferred models that are available
(in preference order), then remaining available models not yet pushed
(in upstream order). -/
def buildCandidates (preferred available : List String) : List String :=
  let part1 := preferred.foldl
    (fun acc p => if available.contains p then acc ++ [p] else acc) []
  available.foldl (fun acc a => if acc.contains a then acc else acc ++ [a])
    part1

/-- The capability skip test inside the candidate loop:
`generateCapable.size > 0 && !generateCapable.has(model)`. -/
def skipCandidate (capable : List String) (model : String) : Bool :=
  decide (0 < capable.length) && !capable.contains model

inductive LoopOutcome where
  | success (model text : String)
  | fatal (msg : String)
  | exhausted
deriving DecidableEq

/-- The inner candidate loop of `generateWithAutoPick` for one namespace.
Also returns the list of candidates on which generation was attempted. -/
def tryCandidates (gen : String → Except String String)
    (capable : List String) : List String → LoopOutcome × List String
  | [] => (.exhausted, [])
  | m :: rest =>
    if skipCandidate capable m then tryCandidates gen capable rest
    else
      match gen m with
      | .ok text => (.success m text, [m])
      | .error msg =>
        if isGeminiNotFoundOrUnsupported msg then
          let r := tryCandidates gen capable rest
          (r.1, m :: r.2)
        else (.fatal msg, [m])

structure GenOk where
  version : GeminiApiVersion
  model : String
  text : String
deriving DecidableEq

/-- The outer version loop of `generateWithAutoPick`.  A `ListModels`
failure skips the namespace; a fatal candidate failure propagates out of
both loops.  The second component is the trace of attempted
`(version, model)` generation calls. -/
def autoPickGo (up : Upstream) :
    List GeminiApiVersion → Except String GenOk × List (GeminiApiVersion × String)
  | [] => (.error "No working Gemini model found (checked v1beta/v1).", [])
  | v :: rest =>
    match up.listModels v with
    | .error _ => autoPickGo up rest
    | .ok models =>
      let available := availableOf models
      let capable := generateCapableOf models
      let candidates := buildCandidates preferredModels available
      match tryCandidates (generateContentM up v) capable candidates with
      | (.success m t, tried) => (.ok ⟨v, m, t⟩, tried.map (fun x => (v, x)))
      | (.fatal msg, tried) => (.error msg, tried.map (fun x => (v, x)))
      | (.exhausted, tried) =>
        let r := autoPickGo up rest
        (r.1, tried.map (fun x => (v, x)) ++ r.2)

/-- `generateWithAutoPick` over the fixed namespace order `v1beta`, `v1`. -/
def generateWithAutoPick (up : Upstream) :
    Except String GenOk × List (GeminiApiVersion × String) :=
  autoPickGo up [.v1beta, .v1]

/-! ## The request handler

One run of `handler` is a pure function of the request and a `HandlerWorld`
holding the store state, the fresh lock token, the per-call-site KV fault
injections, and the external collaborators (news search, scraping, the
Gemini upstream).  The result records the HTTP outcome plus a trace of which
external calls were performed, so that "no upstream call happens on this
path" claims are statements about the trace. -/

structure Article where
  url : String
deriving DecidableEq

structure HandlerWorld where
  env : Env
  store : Store
  token : String
  acquireFault : Option String
  cacheGetFault : Option String
  cacheSetFault : Option String
  releaseGetFault : Option String
  releaseDelFault : Option String
  gnews : Except String (List Article)
  scrape : String → String
  upstream : Upstream

structure HandlerRequest where
  method : String
  companyName : Option String
  gnewsApiKey : Option String
  geminiApiKey : Option String

structure HandlerResult where
  status : Nat
  store : Store
  report : Option String := none
  cached : Option Bool := none
  errMsg : Option String := none
  acquiredToken : Option String := none
  calledCacheGet : Bool := false
  calledGnews : Bool := false
  scrapedUrls : List String := []
  calledGen : Bool := false
  calledCacheSet : Bool := false
  releaseAttempted : Bool := false

/-- Step 4–5: Gemini generation and cache write, then the 200 response. -/
def genPhase (w : HandlerWorld) (cacheKey : String) (lockVal : Option String)
    (store : Store) (urls : List String) : HandlerResult :=
  match (generateWithAutoPick w.upstream).1 with
  | .error msg =>
    { status := 500, store := store, errMsg := some msg,
      acquiredToken := lockVal, calledCacheGet := true, calledGnews := true,
      scrapedUrls := urls, calledGen := true }
  | .ok generated =>
    let report := jsTrim generated.text
    match kvSetEx w.env w.cacheSetFault store cacheKey report (86400 * 7) with
    | .ok store2 =>
      { status := 200, store := store2, report := some report,
        cached := some false, acquiredToken := lockVal,
        calledCacheGet := true, calledGnews := true, scrapedUrls := urls,
        calledGen := true, calledCacheSet := true }
    | .error _ =>
      { status := 200, store := store, report := some report,
        cached := some false, acquiredToken := lockVal,
        calledCacheGet := true, calledGnews := true, scrapedUrls := urls,
        calledGen := true, calledCacheSet := true }

/-- Steps 2–3: GNews search and scraping, with the two 404 exits. -/
def newsPhase (w : HandlerWorld) (cacheKey : String) (lockVal : Option String)
    (store : Store) : HandlerResult :=
  match w.gnews with
  | .error msg =>
    { status := 500, store := store, errMsg := some msg,
      acquiredToken := lockVal, calledCacheGet := true, calledGnews := true }
  | .ok articles =>
    if articles.length = 0 then
      { status := 404, store := store,
        errMsg := some "関連ニュースが見つかりませんでした。",
        acquiredToken := lockVal, calledCacheGet := true, calledGnews := true }
    else
      let urls := articles.map (fun a => a.url)
      let articleTexts := urls.map w.scrape
      let combinedText := String.intercalate "\n\n---\n\n"
        (articleTexts.filter (fun t => 50 < t.length))
      if combinedText = "" then
        { status := 404, store := store,
          errMsg := some "記事本文を取得できませんでした。",
          acquiredToken := lockVal, calledCacheGet := true,
          calledGnews := true, scrapedUrls := urls }
      else genPhase w cacheKey lockVal store urls

/-- Step 1: cache lookup; a hit short-circuits, a read failure is logged and
swallowed. -/
def cachePhase (w : HandlerWorld) (cacheKey : String) (lockVal : Option String)
    (store : Store) : HandlerResult :=
  match kvGetString w.env w.cacheGetFault store cacheKey with
  | .ok (some cached) =>
    if !(jsTrim cached).isEmpty then
      { status := 200, store := store, report := some (jsTrim cached),
        cached := some true, acquiredToken := lockVal,
        calledCacheGet := true }
    else newsPhase w cacheKey lockVal store
  | .ok none => newsPhase w cacheKey lockVal store
  | .error _ => newsPhase w cacheKey lockVal store

/-- Step 0 and the surrounding `try`/`catch`: lock acquisition with its 429
exit, then the rest of the pipeline.  A non-rate-limit acquisition failure
rethrows into the outer catch (status 500, no lock held). -/
def tryBlock (w : HandlerWorld) (name : String) : HandlerResult :=
  let companyKey := normalizeCompanyKey name
  let cacheKey := "report:" ++ companyKey
  let lockKey := "lock:report:" ++ companyKey
  match acquireLock w.env w.acquireFault w.store lockKey w.token 120 with
  | .error msg =>
    if isRateLimitLike msg then cachePhase w cacheKey none w.store
    else { status := 500, store := w.store, errMsg := some msg }
  | .ok (tokOpt, store1) =>
    if tokOpt.isNone && (getKvConfig w.env).isSome then
      { status := 429, store := store1,
        errMsg := some "現在分析中です。少し待って再実行してください。" }
    else cachePhase w cacheKey tokOpt store1

/-- The `finally` block: if a truthy lock token is held, attempt release;
a release failure is logged and swallowed (the response is unchanged). -/
def finallyRelease (w : HandlerWorld) (lockKey : String)
    (r : HandlerResult) : HandlerResult :=
  match r.acquiredToken with
  | none => r
  | some t =>
    if t.isEmpty then r
    else
      match releaseLock w.env w.releaseGetFault w.releaseDelFault r.store
          lockKey t with
      | .ok store2 => { r with store := store2, releaseAttempted := true }
      | .error _ => { r with releaseAttempted := true }

/-- The exported request handler: method / body / configuration validation,
then the `try` block, then the `finally` release on every path. -/
def handler (req : HandlerRequest) (w : HandlerWorld) : HandlerResult :=
  if !(req.method = "POST" : Bool) then { status := 405, store := w.store }
  else
    match req.companyName with
    | none =>
      { status := 400, store := w.store,
        errMsg := some "companyName is required." }
    | some name =>
      if (jsTrim name).isEmpty then
        { status := 400, store := w.store,
          errMsg := some "companyName is required." }
      else if !jsTruthy req.gnewsApiKey then
        { status := 500, store := w.store,
          errMsg := some "GNEWS_API_KEY is not set." }
      else if !jsTruthy req.geminiApiKey then
        { status := 500, store := w.store,
          errMsg := some "GEMINI_API_KEY is not set." }
      else
        let lockKey := "lock:report:" ++ normalizeCompanyKey name
        finallyRelease w lockKey (tryBlock w name)

/-! ## Concrete worlds used by witnesses and counterexamples -/

/-- A configured environment (legacy `KV_REST_API_*` variables set). -/
def envConfigured : Env := fun k =>
  if k = "KV_REST_API_URL" then some "https://kv"
  else if k = "KV_REST_API_TOKEN" then some "tok" else none

/-- An entirely unconfigured environment. -/
def envUnset : Env := fun _ => none

/-- An upstream whose `v1beta` listing exposes one capable model and whose
generation always succeeds. -/
def upstreamOk : Upstream :=
  { listModels := fun v =>
      match v with
      | .v1beta => .ok [⟨some "models/gemini-2.0-flash", some ["generateContent"]⟩]
      | .v1 => .error "boom"
    genRaw := fun _ _ => .ok "  REPORT TEXT  " }

/-- An upstream whose first candidate fails with an auth-class error. -/
def upstreamAuthFail : Upstream :=
  { listModels := fun v =>
      match v with
      | .v1beta => .ok [⟨some "models/gemini-2.5-flash", none⟩]
      | .v1 => .ok [⟨some "models/other-model", none⟩]
    genRaw := fun _ _ =>
      .error "Gemini generateContent failed (v1beta/gemini-2.5-flash): 401 auth" }

/-- A well-formed analyze request for company "Acme Corp". -/
def reqAcme : HandlerRequest :=
  { method := "POST", companyName := some "Acme Corp",
    gnewsApiKey := some "g", geminiApiKey := some "k" }

/-- A healthy world: configured backend, empty store, no faults, one news
article whose scraped text passes the length filter. -/
def worldHealthy : HandlerWorld :=
  { env := envConfigured, store := [], token := "uuid-1",
    acquireFault := none, cacheGetFault := none, cacheSetFault := none,
    releaseGetFault := none, releaseDelFault := none,
    gnews := .ok [⟨"http://a"⟩],
    scrape := fun _ => ⟨List.replicate 60 'x'⟩,
    upstream := upstreamOk }

/-- The healthy world with every KV call site failing with a generic
network-level message (backend entirely unreachable). -/
def worldUnreachable : HandlerWorld :=
  { worldHealthy with
    acquireFault := some "ECONNREFUSED", cacheGetFault := some "ECONNREFUSED",
    cacheSetFault := some "ECONNREFUSED",
    releaseGetFault := some "ECONNREFUSED",
    releaseDelFault := some "ECONNREFUSED" }

/-! ## String helper lemmas -/

theorem jsTrimList_idem (l : List Char) :
    jsTrimList (jsTrimList l) = jsTrimList l := by
  unfold jsTrimList
  have h1 : List.dropWhile isJsWs
      (List.rdropWhile isJsWs (List.dropWhile isJsWs l)) =
      List.rdropWhile isJsWs (List.dropWhile isJsWs l) := by
    rw [List.dropWhile_eq_self_iff]
    intro hl
    have hpre := List.rdropWhile_prefix isJsWs (List.dropWhile isJsWs l)
    have hlen : 0 < (List.dropWhile isJsWs l).length :=
      Nat.lt_of_lt_of_le hl hpre.length_le
    have hget := List.IsPrefix.getElem hpre hl
    have hhead := List.dropWhile_get_zero_not isJsWs l hlen
    simpa [List.get_eq_getElem, hget] using hhead
  rw [h1, List.rdropWhile_idempotent]

theorem jsTrim_idem (s : String) : jsTrim (jsTrim s) = jsTrim s := by
  simp [jsTrim, jsTrimList_idem]

theorem isEmpty_false_ne (s : String) (h : s.isEmpty = false) : s ≠ "" := by
  simp [← String.isEmpty_iff, h]

/-! ## Store helper lemmas -/

theorem lookupStore_erase_self (s : Store) (k : String) :
    lookupStore (eraseKey s k) k = none := by
  induction s with
  | nil => rfl
  | cons e t ih => by_cases he : e.1 = k <;> simp [eraseKey, lookupStore, he, ih]

theorem lookupStore_erase_ne (s : Store) (k k' : String) (h : ¬k = k') :
    lookupStore (eraseKey s k) k' = lookupStore s k' := by
  induction s with
  | nil => rfl
  | cons e t ih =>
    by_cases he : e.1 = k
    · have he' : ¬e.1 = k' := by rw [he]; exact h
      simp [eraseKey, lookupStore, he, he', ih, h, Ne.symm h]
    · by_cases he' : e.1 = k' <;>
        simp [eraseKey, lookupStore, he, he', ih, h, Ne.symm h]

theorem lookupStore_insert_self (s : Store) (k v : String) :
    lookupStore (insertKey s k v) k = some v := by
  simp [insertKey, lookupStore]

theorem lookupStore_insert_ne (s : Store) (k k' v : String) (h : ¬k = k') :
    lookupStore (insertKey s k v) k' = lookupStore s k' := by
  simp only [insertKey, lookupStore, if_neg h]
  exact lookupStore_erase_ne s k k' h

/-- The report cache key and the lock key of the same company key differ. -/
theorem reportKey_ne_lockKey (ck : String) :
    ¬("report:" ++ ck) = ("lock:report:" ++ ck) := by
  intro h
  have hlen := congrArg String.length h
  rw [String.length_append, String.length_append] at hlen
  have h7 : ("report:" : String).length = 7 := rfl
  have h12 : ("lock:report:" : String).length = 12 := rfl
  omega

/-! ## C10 — attention score -/

theorem attentionScore_eq_sum (text : String) :
    calculateAttentionScore text =
      ((KEYWORD_SCORES.filter (fun kv => keywordMatches text kv.1)).map
        (fun kv => kv.2)).sum := by
  by_cases h : text = ""
  · subst h; decide
  · simp only [calculateAttentionScore, if_neg h, KEYWORD_SCORES, keywordMatches]
    cases h1 : jsIncludes (jsToLower text) (jsToLower "新製品") <;>
      cases h2 : jsIncludes (jsToLower text) (jsToLower "DX") <;>
        cases h3 : jsIncludes (jsToLower text) (jsToLower "提携") <;>
          cases h4 : jsIncludes (jsToLower text) (jsToLower "課題") <;>
            simp [h1, h2, h3, h4]

/-- C10: for every input string, `calculateAttentionScore` returns the sum of
the scores of the distinct keywords (新製品 10, DX 10, 提携 10, 課題 5) whose
lower-cased form occurs in the lower-cased text, each keyword counted at most
once however often it occurs; hence the result is at most 35 (and, being a
count of non-negative scores, at least 0), and is 0 for the empty string. -/
theorem C10_attention_score (text : String) :
    calculateAttentionScore text =
      ((KEYWORD_SCORES.filter (fun kv => keywordMatches text kv.1)).map
        (fun kv => kv.2)).sum ∧
    (KEYWORD_SCORES.map (fun kv => kv.1)).Nodup ∧
    calculateAttentionScore text ≤ 35 ∧
    calculateAttentionScore "" = 0 := by
  refine ⟨attentionScore_eq_sum text, by decide, ?_, by decide⟩
  rw [attentionScore_eq_sum text]
  simp only [KEYWORD_SCORES, keywordMatches]
  cases h1 : jsIncludes (jsToLower text) (jsToLower "新製品") <;>
    cases h2 : jsIncludes (jsToLower text) (jsToLower "DX") <;>
      cases h3 : jsIncludes (jsToLower text) (jsToLower "提携") <;>
        cases h4 : jsIncludes (jsToLower text) (jsToLower "課題") <;>
          simp [h1, h2, h3, h4]

/-! ## C1 — lock release safety -/

/-- C1: with a configured, healthy backend, `releaseLock k tA` deletes the
record at `k` exactly when the value read back is `tA` itself; in particular
if `k` currently holds `tB ≠ tA`, the store is left unchanged. -/
theorem C1_release_if_owner (env : Env) (store : Store) (k tA : String)
    (cfg : KvConfig) (hcfg : getKvConfig env = some cfg) :
    releaseLock env none none store k tA =
      .ok (if lookupStore store k = some tA then eraseKey store k else store) ∧
    (∀ tB, lookupStore store k = some tB → tA ≠ tB →
      releaseLock env none none store k tA = .ok store) := by
  constructor
  · simp only [releaseLock, kvGetString, kvDel, hcfg]
    by_cases h : lookupStore store k = some tA <;> simp [h]
  · intro tB hB hne
    simp only [releaseLock, kvGetString, kvDel, hcfg, hB]
    have : ¬(some tB = some tA) := by
      intro hc; exact hne (Option.some.inj hc).symm
    simp [this]

/-- Witness for C1 at a concrete store: the lock at `"k"` is held by token
`"tB"`, and releasing with the different token `"tA"` leaves it in place. -/
theorem C1_release_if_owner_witness :
    releaseLock envConfigured none none [("k", "tB")] "k" "tA" =
      .ok [("k", "tB")] :=
  (C1_release_if_owner envConfigured [("k", "tB")] "k" "tA"
    ⟨"https://kv", "tok"⟩ (by decide)).2 "tB" (by decide) (by decide)

/-! ## C6 — unconfigured backend degrades silently -/

/-- C6: when no KV endpoint/token is configured, `kvGetString` returns absent
without raising, `kvSetEx` and `kvDel` succeed leaving the store untouched,
and `acquireLock` returns no token — whatever fault the (never-contacted)
backend would have produced. -/
theorem C6_unconfigured_noop (env : Env) (h : getKvConfig env = none)
    (fault : Option String) (store : Store) (key value token : String)
    (ttl : Nat) :
    kvGetString env fault store key = .ok none ∧
    kvSetEx env fault store key value ttl = .ok store ∧
    kvDel env fault store key = .ok store ∧
    acquireLock env fault store key token ttl = .ok (none, store) := by
  simp [kvGetString, kvSetEx, kvDel, acquireLock, h]

/-- Witness for C6 on the concrete empty environment. -/
theorem C6_unconfigured_noop_witness :
    kvGetString envUnset (some "fail") [("a", "b")] "a" = .ok none ∧
    kvSetEx envUnset (some "fail") [("a", "b")] "a" "v" 60 = .ok [("a", "b")] ∧
    kvDel envUnset (some "fail") [("a", "b")] "a" = .ok [("a", "b")] ∧
    acquireLock envUnset (some "fail") [("a", "b")] "a" "t" 60 =
      .ok (none, [("a", "b")]) :=
  C6_unconfigured_noop envUnset rfl (some "fail") [("a", "b")] "a" "v" "t" 60

/-! ## C7 — the candidate list -/

/-- Spec-side description of the second candidate segment: the available
models not already listed, in upstream order, first occurrences only
(`excluded` holds everything already in the candidate list). -/
def remainingAvailable (excluded : List String) : List String → List String
  | [] => []
  | a :: rest =>
    if excluded.contains a then remainingAvailable excluded rest
    else a :: remainingAvailable (a :: excluded) rest

theorem foldl_pushIfAvailable (available : List String) (l acc : List String) :
    l.foldl (fun acc p => if available.contains p then acc ++ [p] else acc) acc
      = acc ++ l.filter (fun p => available.contains p) := by
  induction l generalizing acc with
  | nil => rw [List.foldl_nil, List.filter_nil, List.append_nil]
  | cons a t ih =>
    rw [List.foldl_cons, List.filter_cons]
    cases h : available.contains a with
    | true =>
      rw [if_pos rfl, if_pos rfl, ih (acc ++ [a]), List.append_assoc]
      rfl
    | false =>
      rw [if_neg Bool.false_ne_true, if_neg Bool.false_ne_true]
      exact ih acc

theorem foldl_dedupPush (l : List String) (acc excl : List String)
    (hx : ∀ x, acc.contains x = excl.contains x) :
    l.foldl (fun acc a => if acc.contains a then acc else acc ++ [a]) acc
      = acc ++ remainingAvailable excl l := by
  induction l generalizing acc excl with
  | nil => rw [List.foldl_nil, remainingAvailable, List.append_nil]
  | cons a t ih =>
    rw [List.foldl_cons, remainingAvailable]
    cases h : excl.contains a with
    | true =>
      have ha : acc.contains a = true := by rw [hx a]; exact h
      rw [if_pos ha, if_pos rfl]
      exact ih acc excl hx
    | false =>
      have ha : acc.contains a = false := by rw [hx a]; exact h
      rw [if_neg (by rw [ha]; exact Bool.false_ne_true),
        if_neg Bool.false_ne_true]
      have hx' : ∀ x, (acc ++ [a]).contains x = (a :: excl).contains x := by
        intro x
        have hiff : (x ∈ acc) ↔ (x ∈ excl) := by
          have hh := hx x
          simp only [List.elem_eq_mem] at hh
          exact decide_eq_decide.mp hh
        simp only [List.elem_eq_mem, decide_eq_decide, List.mem_append,
          List.mem_cons, List.mem_singleton, hiff]
        tauto
      rw [ih (acc ++ [a]) (a :: excl) hx', List.append_assoc]
      rfl

theorem remainingAvailable_nodup (l : List String) (excl : List String) :
    (remainingAvailable excl l).Nodup ∧
      ∀ x ∈ remainingAvailable excl l, excl.contains x = false := by
  induction l generalizing excl with
  | nil => exact ⟨List.nodup_nil, fun x hx => absurd hx (List.not_mem_nil x)⟩
  | cons a t ih =>
    rw [remainingAvailable]
    cases h : excl.contains a with
    | true =>
      rw [if_pos rfl]
      exact ih excl
    | false =>
      rw [if_neg Bool.false_ne_true]
      obtain ⟨hnd, hmem⟩ := ih (a :: excl)
      refine ⟨List.nodup_cons.mpr ⟨fun hc => ?_, hnd⟩, ?_⟩
      · have := hmem a hc
        simp [List.elem_eq_mem] at this
      · intro x hxm
        rcases List.mem_cons.mp hxm with hxa | hxt
        · subst hxa; exact h
        · have := hmem x hxt
          simp only [List.elem_eq_mem, List.mem_cons, decide_eq_false_iff_not,
            not_or] at this ⊢
          exact this.2

theorem buildCandidates_eq (available : List String) :
    buildCandidates preferredModels available =
      preferredModels.filter (fun p => available.contains p) ++
        remainingAvailable
          (preferredModels.filter (fun p => available.contains p)) available := by
  unfold buildCandidates
  rw [foldl_pushIfAvailable available preferredModels []]
  rw [List.nil_append]
  exact foldl_dedupPush available _ _ (fun _ => rfl)

theorem buildCandidates_nodup (available : List String) :
    (buildCandidates preferredModels available).Nodup := by
  rw [buildCandidates_eq]
  have hp : (preferredModels.filter (fun p => available.contains p)).Nodup :=
    List.Nodup.filter _ (by decide)
  obtain ⟨hnd, hmem⟩ :=
    remainingAvailable_nodup available
      (preferredModels.filter (fun p => available.contains p))
  refine hp.append hnd (List.disjoint_right.mpr ?_)
  intro x hx hx'
  have hc := hmem x hx
  simp only [List.elem_eq_mem, decide_eq_false_iff_not] at hc hx'
  exact hc hx'

theorem tryCandidates_tried_sublist (gen : String → Except String String)
    (capable : List String) (l : List String) :
    (tryCandidates gen capable l).2.Sublist l := by
  induction l with
  | nil => simp [tryCandidates]
  | cons m rest ih =>
    rw [tryCandidates]
    cases h : skipCandidate capable m with
    | true => simpa [h] using ih.cons m
    | false =>
      simp only [h, Bool.false_eq_true, if_false]
      cases hg : gen m with
      | ok text => simp [(List.nil_sublist rest).cons₂ m]
      | error msg =>
        cases hn : isGeminiNotFoundOrUnsupported msg with
        | true => simp [hn, ih.cons₂ m]
        | false => simp [hn, (List.nil_sublist rest).cons₂ m]

/-- C7: for each namespace, the candidate list is exactly the hardcoded
preference list intersected with the available models (in preference order)
followed by every other available model in upstream order (first occurrences
only); the list has no duplicates, and the models actually attempted by the
candidate loop form a sublist of it (hence no model is tried twice). -/
theorem C7_candidate_list (available : List String) :
    buildCandidates preferredModels available =
      preferredModels.filter (fun p => available.contains p) ++
        remainingAvailable
          (preferredModels.filter (fun p => available.contains p)) available ∧
    (buildCandidates preferredModels available).Nodup ∧
    ∀ (gen : String → Except String String) (capable : List String),
      (tryCandidates gen capable (buildCandidates preferredModels available)).2.Sublist
          (buildCandidates preferredModels available) ∧
      (tryCandidates gen capable (buildCandidates preferredModels available)).2.Nodup :=
  ⟨buildCandidates_eq available, buildCandidates_nodup available,
    fun gen capable =>
      ⟨tryCandidates_tried_sublist gen capable _,
        (buildCandidates_nodup available).sublist
          (tryCandidates_tried_sublist gen capable _)⟩⟩

/-! ## C8 — capability-based skipping -/

theorem mem_generateCapableOf (models : List GeminiModel) (m : GeminiModel)
    (n : String) (hm : m ∈ models) (hn : m.name = some n)
    (hcap : modelSupportsGenerateContent m = true) :
    shortModelName n ∈ generateCapableOf models := by
  unfold generateCapableOf
  rw [List.mem_filterMap]
  exact ⟨m, hm, by rw [hn]; simp [hcap]⟩

/-- C8: a candidate is skipped by the capability filter only when it fails
`modelSupportsGenerateContent`, i.e. only when upstream explicitly declared a
non-empty supported-methods list that excludes `generateContent`; a model
whose capability metadata is absent or empty passes the filter and is never
skipped. -/
theorem C8_capability_default :
    (∀ m : GeminiModel,
      m.supportedGenerationMethods = none ∨
        m.supportedGenerationMethods = some [] →
      modelSupportsGenerateContent m = true) ∧
    (∀ (models : List GeminiModel) (m : GeminiModel) (n : String),
      m ∈ models → m.name = some n →
      m.supportedGenerationMethods = none ∨
        m.supportedGenerationMethods = some [] →
      skipCandidate (generateCapableOf models) (shortModelName n) = false) ∧
    (∀ (models : List GeminiModel) (c : String),
      skipCandidate (generateCapableOf models) c = true →
      ∀ m ∈ models, ∀ n, m.name = some n → shortModelName n = c →
        ∃ ms, m.supportedGenerationMethods = some ms ∧ ms ≠ [] ∧
          ms.contains "generateContent" = false) := by
  refine ⟨?_, ?_, ?_⟩
  · intro m h
    rcases h with h | h <;> simp [modelSupportsGenerateContent, h]
  · intro models m n hm hn h
    have hcap : modelSupportsGenerateContent m = true := by
      rcases h with h | h <;> simp [modelSupportsGenerateContent, h]
    have hmem := mem_generateCapableOf models m n hm hn hcap
    unfold skipCandidate
    simp [List.elem_eq_mem, hmem]
  · intro models c hskip m hm n hn hshort
    unfold skipCandidate at hskip
    rw [Bool.and_eq_true] at hskip
    have hnc : ¬c ∈ generateCapableOf models := by
      have := hskip.2
      simpa [List.elem_eq_mem] using this
    have hcap : modelSupportsGenerateContent m = false := by
      cases hc : modelSupportsGenerateContent m with
      | true =>
        exact absurd (hshort ▸ mem_generateCapableOf models m n hm hn hc) hnc
      | false => rfl
    rcases hms : m.supportedGenerationMethods with _ | ms
    · have ht : modelSupportsGenerateContent m = true := by
        simp [modelSupportsGenerateContent, hms]
      rw [ht] at hcap
      exact absurd hcap (by simp)
    · by_cases hlen : ms.length = 0
      · have ht : modelSupportsGenerateContent m = true := by
          simp [modelSupportsGenerateContent, hms, hlen]
        rw [ht] at hcap
        exact absurd hcap (by simp)
      · have hc : ms.contains "generateContent" = false := by
          have heq : modelSupportsGenerateContent m =
              ms.contains "generateContent" := by
            simp only [modelSupportsGenerateContent, hms, if_neg hlen]
          rw [← heq]
          exact hcap
        exact ⟨ms, rfl, fun hnil => hlen (by rw [hnil]; rfl), hc⟩

/-- Witness for C8: a listed model with absent capability metadata is not
skipped by the capability filter. -/
theorem C8_capability_default_witness :
    skipCandidate
      (generateCapableOf [⟨some "models/gemini-x", none⟩])
      (shortModelName "models/gemini-x") = false :=
  C8_capability_default.2.1 [⟨some "models/gemini-x", none⟩]
    ⟨some "models/gemini-x", none⟩ "models/gemini-x"
    (List.mem_singleton.mpr rfl) rfl (Or.inl rfl)

/-! ## C2 — error classification in the candidate loop -/

theorem tryCandidates_notFound_continues
    (gen : String → Except String String) (capable : List String)
    (m : String) (rest : List String) (msg : String)
    (hskip : skipCandidate capable m = false) (hgen : gen m = .error msg)
    (hclass : isGeminiNotFoundOrUnsupported msg = true) :
    tryCandidates gen capable (m :: rest) =
      ((tryCandidates gen capable rest).1,
        m :: (tryCandidates gen capable rest).2) := by
  rw [tryCandidates, hskip]
  simp only [Bool.false_eq_true, if_false]
  rw [hgen]
  simp only [hclass, if_true]

theorem tryCandidates_fatal_aborts
    (gen : String → Except String String) (capable : List String)
    (m : String) (rest : List String) (msg : String)
    (hskip : skipCandidate capable m = false) (hgen : gen m = .error msg)
    (hclass : isGeminiNotFoundOrUnsupported msg = false) :
    tryCandidates gen capable (m :: rest) = (.fatal msg, [m]) := by
  rw [tryCandidates, hskip]
  simp only [Bool.false_eq_true, if_false]
  rw [hgen]
  simp only [hclass, Bool.false_eq_true, if_false]

/-- C2: in the candidate loop, a generation failure of the
not-found/unsupported class makes the selector advance to the next
candidate, while a failure of any other class aborts with exactly that
error after attempting only the failing candidate; lifted to the whole
selector, a fatal failure on the first `v1beta` candidate makes
`generateWithAutoPick` propagate that error having attempted no other
candidate and no other namespace. -/
theorem C2_fatal_vs_notFound :
    (∀ (gen : String → Except String String) (capable : List String)
        (m : String) (rest : List String) (msg : String),
      skipCandidate capable m = false → gen m = .error msg →
      isGeminiNotFoundOrUnsupported msg = true →
      tryCandidates gen capable (m :: rest) =
        ((tryCandidates gen capable rest).1,
          m :: (tryCandidates gen capable rest).2)) ∧
    (∀ (gen : String → Except String String) (capable : List String)
        (m : String) (rest : List String) (msg : String),
      skipCandidate capable m = false → gen m = .error msg →
      isGeminiNotFoundOrUnsupported msg = false →
      tryCandidates gen capable (m :: rest) = (.fatal msg, [m])) ∧
    (∀ (up : Upstream) (models : List GeminiModel) (m : String)
        (rest : List String) (msg : String),
      up.listModels .v1beta = .ok models →
      buildCandidates preferredModels (availableOf models) = m :: rest →
      skipCandidate (generateCapableOf models) m = false →
      generateContentM up .v1beta m = .error msg →
      isGeminiNotFoundOrUnsupported msg = false →
      generateWithAutoPick up = (.error msg, [(.v1beta, m)])) := by
  refine ⟨tryCandidates_notFound_continues, tryCandidates_fatal_aborts, ?_⟩
  intro up models m rest msg hlist hcand hskip hgen hclass
  unfold generateWithAutoPick autoPickGo
  rw [hlist]
  simp only
  rw [hcand, tryCandidates_fatal_aborts (generateContentM up .v1beta)
    (generateCapableOf models) m rest msg hskip hgen hclass]
  rfl

/-- Witness for C2: a concrete upstream whose sole `v1beta` candidate fails
with an auth-class (non-404) error; the selection aborts with that error
having attempted only this one candidate. -/
theorem C2_fatal_vs_notFound_witness :
    generateWithAutoPick upstreamAuthFail =
      (.error "Gemini generateContent failed (v1beta/gemini-2.5-flash): 401 auth",
        [(.v1beta, "gemini-2.5-flash")]) :=
  C2_fatal_vs_notFound.2.2 upstreamAuthFail
    [⟨some "models/gemini-2.5-flash", none⟩] "gemini-2.5-flash" []
    "Gemini generateContent failed (v1beta/gemini-2.5-flash): 401 auth"
    rfl (by decide) (by decide) rfl (by decide)

/-! ## Handler phase lemmas -/

theorem generateContentM_ok_trim (up : Upstream) (v : GeminiApiVersion)
    (m t : String) (h : generateContentM up v m = .ok t) :
    (jsTrim t).isEmpty = false := by
  unfold generateContentM at h
  cases hg : up.genRaw v m with
  | error msg => rw [hg] at h; exact absurd h (by simp)
  | ok text =>
    rw [hg] at h
    simp only at h
    by_cases he : jsTrim text = ""
    · rw [if_pos he] at h; exact absurd h (by simp)
    · rw [if_neg he] at h
      have ht : text = t := by injection h
      subst ht
      cases hres : (jsTrim text).isEmpty with
      | true => exact absurd ((String.isEmpty_iff _).mp hres) he
      | false => rfl

theorem tryCandidates_success_trim (up : Upstream) (v : GeminiApiVersion)
    (capable : List String) (l : List String) (m t : String)
    (tr : List String)
    (h : tryCandidates (generateContentM up v) capable l = (.success m t, tr)) :
    (jsTrim t).isEmpty = false := by
  induction l generalizing tr with
  | nil => rw [tryCandidates] at h; exact absurd h (by simp)
  | cons m' rest ih =>
    rw [tryCandidates] at h
    cases hs : skipCandidate capable m' with
    | true =>
      rw [hs] at h
      simp only [if_true] at h
      exact ih tr h
    | false =>
      rw [hs] at h
      simp only [Bool.false_eq_true, if_false] at h
      cases hg : generateContentM up v m' with
      | ok text =>
        rw [hg] at h
        simp only [Prod.mk.injEq, LoopOutcome.success.injEq] at h
        obtain ⟨⟨hm, ht⟩, htr⟩ := h
        exact ht ▸ generateContentM_ok_trim up v m' text hg
      | error msg =>
        rw [hg] at h
        simp only at h
        cases hn : isGeminiNotFoundOrUnsupported msg with
        | true =>
          rw [hn] at h
          simp only [if_true, Prod.mk.injEq] at h
          obtain ⟨h1, h2⟩ := h
          exact ih _ (Prod.ext h1 rfl)
        | false =>
          rw [hn] at h
          simp only [Bool.false_eq_true, if_false, Prod.mk.injEq] at h
          exact absurd h.1 (by simp)

theorem autoPickGo_ok_trim (up : Upstream) (vs : List GeminiApiVersion)
    (g : GenOk) (h : (autoPickGo up vs).1 = .ok g) :
    (jsTrim g.text).isEmpty = false := by
  induction vs with
  | nil => rw [autoPickGo] at h; exact absurd h (by simp)
  | cons v rest ih =>
    rw [autoPickGo] at h
    cases hl : up.listModels v with
    | error e => rw [hl] at h; exact ih h
    | ok models =>
      rw [hl] at h
      simp only at h
      rcases htc : tryCandidates (generateContentM up v)
          (generateCapableOf models)
          (buildCandidates preferredModels (availableOf models))
        with ⟨outcome, tried⟩
      rw [htc] at h
      cases outcome with
      | success m t =>
        simp only at h
        have hg : g = ⟨v, m, t⟩ := by
          have := h
          simp only [Except.ok.injEq] at this
          exact this.symm
        subst hg
        exact tryCandidates_success_trim up v _ _ m t tried htc
      | fatal msg => exact absurd h (by simp)
      | exhausted =>
        simp only at h
        exact ih h

theorem generateWithAutoPick_ok_trim (up : Upstream) (g : GenOk)
    (h : (generateWithAutoPick up).1 = .ok g) :
    (jsTrim g.text).isEmpty = false :=
  autoPickGo_ok_trim up [.v1beta, .v1] g h

/-- All HTTP-visible fields of the result are preserved by the `finally`
release, and the release is attempted exactly when a truthy token is held. -/
theorem finallyRelease_fields (w : HandlerWorld) (lk : String)
    (r : HandlerResult) :
    (finallyRelease w lk r).status = r.status ∧
    (finallyRelease w lk r).report = r.report ∧
    (finallyRelease w lk r).cached = r.cached ∧
    (finallyRelease w lk r).errMsg = r.errMsg ∧
    (finallyRelease w lk r).acquiredToken = r.acquiredToken ∧
    (finallyRelease w lk r).calledCacheGet = r.calledCacheGet ∧
    (finallyRelease w lk r).calledGnews = r.calledGnews ∧
    (finallyRelease w lk r).scrapedUrls = r.scrapedUrls ∧
    (finallyRelease w lk r).calledGen = r.calledGen ∧
    (finallyRelease w lk r).calledCacheSet = r.calledCacheSet ∧
    (finallyRelease w lk r).releaseAttempted =
      (r.releaseAttempted || jsTruthy r.acquiredToken) := by
  unfold finallyRelease
  cases htok : r.acquiredToken with
  | none => simp [jsTruthy, htok]
  | some t =>
    cases hemp : t.isEmpty with
    | true => simp [jsTruthy, htok, hemp]
    | false =>
      cases hrel : releaseLock w.env w.releaseGetFault w.releaseDelFault
          r.store lk t with
      | ok s2 => simp [jsTruthy, htok, hemp, hrel]
      | error e => simp [jsTruthy, htok, hemp, hrel]

theorem finallyRelease_none (w : HandlerWorld) (lk : String)
    (r : HandlerResult) (ht : r.acquiredToken = none) :
    finallyRelease w lk r = r := by
  unfold finallyRelease
  rw [ht]

theorem finallyRelease_some_ok (w : HandlerWorld) (lk : String)
    (r : HandlerResult) (t : String) (s2 : Store)
    (ht : r.acquiredToken = some t) (hne : t.isEmpty = false)
    (hrel : releaseLock w.env w.releaseGetFault w.releaseDelFault r.store lk t
      = .ok s2) :
    finallyRelease w lk r = { r with store := s2, releaseAttempted := true } := by
  simp only [finallyRelease, ht, hne, hrel, Bool.false_eq_true, if_false]

theorem genPhase_relA (w : HandlerWorld) (ck : String) (lv : Option String)
    (store : Store) (urls : List String) :
    (genPhase w ck lv store urls).releaseAttempted = false ∧
    (genPhase w ck lv store urls).acquiredToken = lv := by
  simp only [genPhase]
  cases (generateWithAutoPick w.upstream).1 with
  | error msg => exact ⟨rfl, rfl⟩
  | ok generated =>
    simp only
    cases kvSetEx w.env w.cacheSetFault store ck (jsTrim generated.text)
        (86400 * 7) with
    | ok s2 => exact ⟨rfl, rfl⟩
    | error e => exact ⟨rfl, rfl⟩

theorem newsPhase_relA (w : HandlerWorld) (ck : String) (lv : Option String)
    (store : Store) :
    (newsPhase w ck lv store).releaseAttempted = false ∧
    (newsPhase w ck lv store).acquiredToken = lv := by
  simp only [newsPhase]
  cases w.gnews with
  | error msg => exact ⟨rfl, rfl⟩
  | ok articles =>
    simp only
    by_cases h0 : articles.length = 0
    · rw [if_pos h0]; exact ⟨rfl, rfl⟩
    · rw [if_neg h0]
      by_cases hc : String.intercalate "\n\n---\n\n"
          (((articles.map (fun a => a.url)).map w.scrape).filter
            (fun t => 50 < t.length)) = ""
      · rw [if_pos hc]; exact ⟨rfl, rfl⟩
      · rw [if_neg hc]; exact genPhase_relA ..

theorem cachePhase_relA (w : HandlerWorld) (ck : String) (lv : Option String)
    (store : Store) :
    (cachePhase w ck lv store).releaseAttempted = false ∧
    (cachePhase w ck lv store).acquiredToken = lv := by
  simp only [cachePhase]
  cases kvGetString w.env w.cacheGetFault store ck with
  | error e => exact newsPhase_relA ..
  | ok copt =>
    cases copt with
    | none => exact newsPhase_relA ..
    | some cached =>
      simp only
      by_cases h : (jsTrim cached).isEmpty = true
      · rw [if_neg (by rw [h]; simp)]
        exact newsPhase_relA ..
      · rw [if_pos (by simp at h; simp [h])]
        exact ⟨rfl, rfl⟩

theorem tryBlock_relA (w : HandlerWorld) (name : String) :
    (tryBlock w name).releaseAttempted = false := by
  simp only [tryBlock]
  cases acquireLock w.env w.acquireFault w.store
      ("lock:report:" ++ normalizeCompanyKey name) w.token 120 with
  | error msg =>
    simp only
    by_cases h : isRateLimitLike msg = true
    · rw [if_pos h]; exact (cachePhase_relA ..).1
    · rw [if_neg h]
  | ok p =>
    simp only
    by_cases h : (p.1.isNone && (getKvConfig w.env).isSome) = true
    · rw [if_pos h]
    · rw [if_neg h]; exact (cachePhase_relA ..).1

/-- On a well-formed POST request the handler is the `try` block followed by
the `finally` release. -/
theorem handler_valid (name gk mk : String) (w : HandlerWorld)
    (h1 : (jsTrim name).isEmpty = false) (h2 : gk.isEmpty = false)
    (h3 : mk.isEmpty = false) :
    handler ⟨"POST", some name, some gk, some mk⟩ w =
      finallyRelease w ("lock:report:" ++ normalizeCompanyKey name)
        (tryBlock w name) := by
  simp [handler, jsTruthy, h1, h2, h3]

theorem tryBlock_contended (w : HandlerWorld) (name : String) (cfg : KvConfig)
    (hcfg : getKvConfig w.env = some cfg) (hf : w.acquireFault = none)
    (held : String)
    (hheld : lookupStore w.store ("lock:report:" ++ normalizeCompanyKey name)
      = some held) :
    tryBlock w name =
      { status := 429, store := w.store,
        errMsg := some "現在分析中です。少し待って再実行してください。" } := by
  simp only [tryBlock, acquireLock, hcfg, hf, hheld]
  simp

theorem tryBlock_acquired (w : HandlerWorld) (name : String) (cfg : KvConfig)
    (hcfg : getKvConfig w.env = some cfg) (hf : w.acquireFault = none)
    (hfree : lookupStore w.store ("lock:report:" ++ normalizeCompanyKey name)
      = none) :
    tryBlock w name =
      cachePhase w ("report:" ++ normalizeCompanyKey name) (some w.token)
        (insertKey w.store ("lock:report:" ++ normalizeCompanyKey name)
          w.token) := by
  simp only [tryBlock, acquireLock, hcfg, hf, hfree]
  simp

theorem tryBlock_rateLimited (w : HandlerWorld) (name : String) (cfg : KvConfig)
    (msg : String)
    (hcfg : getKvConfig w.env = some cfg) (hf : w.acquireFault = some msg)
    (hrl : isRateLimitLike msg = true) :
    tryBlock w name =
      cachePhase w ("report:" ++ normalizeCompanyKey name) none w.store := by
  simp only [tryBlock, acquireLock, hcfg, hf, hrl]
  simp

theorem tryBlock_fatalFault (w : HandlerWorld) (name : String) (cfg : KvConfig)
    (msg : String)
    (hcfg : getKvConfig w.env = some cfg) (hf : w.acquireFault = some msg)
    (hrl : isRateLimitLike msg = false) :
    tryBlock w name = { status := 500, store := w.store, errMsg := some msg } := by
  simp only [tryBlock, acquireLock, hcfg, hf, hrl]
  simp

theorem cachePhase_hit (w : HandlerWorld) (ck : String) (lv : Option String)
    (store : Store) (c : String) (cfg : KvConfig)
    (hcfg : getKvConfig w.env = some cfg) (hf : w.cacheGetFault = none)
    (hc : lookupStore store ck = some c)
    (hne : (jsTrim c).isEmpty = false) :
    cachePhase w ck lv store =
      { status := 200, store := store, report := some (jsTrim c),
        cached := some true, acquiredToken := lv, calledCacheGet := true } := by
  simp only [cachePhase, kvGetString, hcfg, hf, hc, hne]
  simp

theorem cachePhase_miss (w : HandlerWorld) (ck : String) (lv : Option String)
    (store : Store) (cfg : KvConfig)
    (hcfg : getKvConfig w.env = some cfg) (hf : w.cacheGetFault = none)
    (hc : lookupStore store ck = none) :
    cachePhase w ck lv store = newsPhase w ck lv store := by
  simp only [cachePhase, kvGetString, hcfg, hf, hc]

theorem cachePhase_fault (w : HandlerWorld) (ck : String) (lv : Option String)
    (store : Store) (cfg : KvConfig) (msg : String)
    (hcfg : getKvConfig w.env = some cfg) (hf : w.cacheGetFault = some msg) :
    cachePhase w ck lv store = newsPhase w ck lv store := by
  simp only [cachePhase, kvGetString, hcfg, hf]

theorem newsPhase_toGen (w : HandlerWorld) (ck : String) (lv : Option String)
    (store : Store) (arts : List Article)
    (hg : w.gnews = .ok arts) (hlen : ¬arts.length = 0)
    (hcomb : ¬String.intercalate "\n\n---\n\n"
        (((arts.map (fun a => a.url)).map w.scrape).filter
          (fun t => 50 < t.length)) = "") :
    newsPhase w ck lv store =
      genPhase w ck lv store (arts.map (fun a => a.url)) := by
  simp only [newsPhase, hg]
  rw [if_neg hlen, if_neg hcomb]

theorem genPhase_ok (w : HandlerWorld) (ck : String) (lv : Option String)
    (store : Store) (urls : List String) (g : GenOk) (cfg : KvConfig)
    (hgen : (generateWithAutoPick w.upstream).1 = .ok g)
    (hcfg : getKvConfig w.env = some cfg) (hsf : w.cacheSetFault = none) :
    genPhase w ck lv store urls =
      { status := 200, store := insertKey store ck (jsTrim g.text),
        report := some (jsTrim g.text), cached := some false,
        acquiredToken := lv, calledCacheGet := true, calledGnews := true,
        scrapedUrls := urls, calledGen := true, calledCacheSet := true } := by
  simp only [genPhase, hgen, kvSetEx, hcfg, hsf]

theorem genPhase_ok_setFault (w : HandlerWorld) (ck : String)
    (lv : Option String) (store : Store) (urls : List String) (g : GenOk)
    (cfg : KvConfig) (msg : String)
    (hgen : (generateWithAutoPick w.upstream).1 = .ok g)
    (hcfg : getKvConfig w.env = some cfg) (hsf : w.cacheSetFault = some msg) :
    genPhase w ck lv store urls =
      { status := 200, store := store,
        report := some (jsTrim g.text), cached := some false,
        acquiredToken := lv, calledCacheGet := true, calledGnews := true,
        scrapedUrls := urls, calledGen := true, calledCacheSet := true } := by
  simp only [genPhase, hgen, kvSetEx, hcfg, hsf]

theorem releaseLock_owner (env : Env) (cfg : KvConfig) (store : Store)
    (k t : String) (hcfg : getKvConfig env = some cfg)
    (hcur : lookupStore store k = some t) :
    releaseLock env none none store k t = .ok (eraseKey store k) := by
  simp [releaseLock, kvGetString, kvDel, hcfg, hcur]

/-! ## C3 — busy rejection on lock contention -/

/-- C3: with the KV backend configured and the lock key already held, the
handler rejects with HTTP 429 at once: the trace shows no cache read, no
news search, no scraping, no generation and no cache write, and the store is
untouched (nothing is queued). -/
theorem C3_contended_429 (w : HandlerWorld) (name gk mk held : String)
    (cfg : KvConfig)
    (h1 : (jsTrim name).isEmpty = false) (h2 : gk.isEmpty = false)
    (h3 : mk.isEmpty = false)
    (hcfg : getKvConfig w.env = some cfg) (hf : w.acquireFault = none)
    (hheld : lookupStore w.store ("lock:report:" ++ normalizeCompanyKey name)
      = some held) :
    (handler ⟨"POST", some name, some gk, some mk⟩ w).status = 429 ∧
    (handler ⟨"POST", some name, some gk, some mk⟩ w).calledCacheGet = false ∧
    (handler ⟨"POST", some name, some gk, some mk⟩ w).calledGnews = false ∧
    (handler ⟨"POST", some name, some gk, some mk⟩ w).scrapedUrls = [] ∧
    (handler ⟨"POST", some name, some gk, some mk⟩ w).calledGen = false ∧
    (handler ⟨"POST", some name, some gk, some mk⟩ w).calledCacheSet = false ∧
    (handler ⟨"POST", some name, some gk, some mk⟩ w).store = w.store := by
  rw [handler_valid name gk mk w h1 h2 h3,
    tryBlock_contended w name cfg hcfg hf held hheld,
    finallyRelease_none _ _ _ rfl]
  exact ⟨rfl, rfl, rfl, rfl, rfl, rfl, rfl⟩

/-- Witness for C3: a concrete world whose lock key for `acmecorp` is held. -/
theorem C3_contended_429_witness :
    (handler reqAcme
        { worldHealthy with store := [("lock:report:acmecorp", "other")] }).status
      = 429 ∧
    (handler reqAcme
        { worldHealthy with store := [("lock:report:acmecorp", "other")] }).calledCacheGet
      = false ∧
    (handler reqAcme
        { worldHealthy with store := [("lock:report:acmecorp", "other")] }).calledGen
      = false := by
  have h := C3_contended_429
    { worldHealthy with store := [("lock:report:acmecorp", "other")] }
    "Acme Corp" "g" "k" "other" ⟨"https://kv", "tok"⟩
    (by decide) (by decide) (by decide) (by decide) rfl (by decide)
  exact ⟨h.1, h.2.1, h.2.2.2.2.1⟩

/-! ## C9 — release on every exit path, failures swallowed -/

theorem handler_release_eq (req : HandlerRequest) (w : HandlerWorld) :
    (handler req w).releaseAttempted =
      jsTruthy (handler req w).acquiredToken := by
  simp only [handler]
  split
  · rfl
  · split
    · rfl
    · split
      · rfl
      · split
        · rfl
        · split
          · rfl
          · rw [(finallyRelease_fields w _ _).2.2.2.2.2.2.2.2.2.2,
              (finallyRelease_fields w _ _).2.2.2.2.1, tryBlock_relA,
              Bool.false_or]

theorem handler_mod_release (req : HandlerRequest) (w : HandlerWorld)
    (f g : Option String) :
    (handler req { w with releaseGetFault := f, releaseDelFault := g }).status
        = (handler req w).status ∧
    (handler req { w with releaseGetFault := f, releaseDelFault := g }).report
        = (handler req w).report ∧
    (handler req { w with releaseGetFault := f, releaseDelFault := g }).cached
        = (handler req w).cached ∧
    (handler req { w with releaseGetFault := f, releaseDelFault := g }).errMsg
        = (handler req w).errMsg := by
  rcases req with ⟨method, cname, gk, mk⟩
  by_cases hm : method = "POST"
  · subst hm
    rcases cname with _ | name
    · exact ⟨rfl, rfl, rfl, rfl⟩
    · cases h1 : (jsTrim name).isEmpty with
      | true => simp [handler, h1]
      | false =>
        cases h2 : jsTruthy gk with
        | false => simp [handler, h1, h2]
        | true =>
          cases h3 : jsTruthy mk with
          | false => simp [handler, h1, h2, h3]
          | true =>
            have hTB : tryBlock
                { w with releaseGetFault := f, releaseDelFault := g } name
                = tryBlock w name := rfl
            simp only [handler, h1, h2, h3, Bool.not_false, Bool.not_true,
              Bool.false_eq_true, if_false]
            rw [hTB]
            set lk := "lock:report:" ++ normalizeCompanyKey name
            set R := tryBlock w name
            have hA := finallyRelease_fields
              { w with releaseGetFault := f, releaseDelFault := g } lk R
            have hB := finallyRelease_fields w lk R
            exact ⟨hA.1.trans hB.1.symm, hA.2.1.trans hB.2.1.symm,
              hA.2.2.1.trans hB.2.2.1.symm,
              hA.2.2.2.1.trans hB.2.2.2.1.symm⟩
  · simp [handler, hm]

/-- C9: on every exit path, when a (truthy) lock token was acquired the
release is attempted — `releaseAttempted` equals the truthiness of the held
token on all paths — and the HTTP-visible outcome (status, report, cached
flag, error message) is unchanged whatever the release-phase backend does:
release failures are swallowed, never thrown past the handler. -/
theorem C9_release_every_path (req : HandlerRequest) (w : HandlerWorld)
    (f g : Option String) :
    ((handler req w).releaseAttempted =
      jsTruthy (handler req w).acquiredToken) ∧
    (handler req { w with releaseGetFault := f, releaseDelFault := g }).status
        = (handler req w).status ∧
    (handler req { w with releaseGetFault := f, releaseDelFault := g }).report
        = (handler req w).report ∧
    (handler req { w with releaseGetFault := f, releaseDelFault := g }).cached
        = (handler req w).cached ∧
    (handler req { w with releaseGetFault := f, releaseDelFault := g }).errMsg
        = (handler req w).errMsg :=
  ⟨handler_release_eq req w, handler_mod_release req w f g⟩

/-! ## C5 — degradation on lock-backend failure -/

/-- Counterexample to C5 as stated: with the KV backend configured but
entirely unreachable — every call site failing with a generic network error
("ECONNREFUSED", not rate-limit-like) — and news search, scraping and
generation all healthy, the request does NOT complete: the handler rethrows
the acquire failure and answers 500, never reaching the generation path. -/
theorem C5_unreachable_fails :
    (handler reqAcme worldUnreachable).status = 500 ∧
    (handler reqAcme worldUnreachable).errMsg = some "ECONNREFUSED" ∧
    (handler reqAcme worldUnreachable).report = none ∧
    ¬(handler reqAcme worldUnreachable).status = 200 := by
  refine ⟨?_, ?_, ?_, ?_⟩ <;> decide

/-- C5 (amended): lock acquisition failure is recoverable only when the
backend error message is rate-limit-like (`isRateLimitLike`); in that mode —
even with cache reads and writes also failing, i.e. the backend effectively
unreachable in rate-limited fashion — the handler logs, proceeds without a
lock, and the request completes end-to-end through the generation path.
A non-rate-limit acquire failure is rethrown and the request fails with 500
(see the counterexample). -/
theorem C5_rateLimit_degrades (w : HandlerWorld)
    (name gk mk amsg cmsg smsg : String) (cfg : KvConfig)
    (arts : List Article) (g : GenOk)
    (h1 : (jsTrim name).isEmpty = false) (h2 : gk.isEmpty = false)
    (h3 : mk.isEmpty = false)
    (hcfg : getKvConfig w.env = some cfg)
    (haf : w.acquireFault = some amsg) (hrl : isRateLimitLike amsg = true)
    (hcf : w.cacheGetFault = some cmsg) (hsf : w.cacheSetFault = some smsg)
    (hg : w.gnews = .ok arts) (hlen : ¬arts.length = 0)
    (hcomb : ¬String.intercalate "\n\n---\n\n"
        (((arts.map (fun a => a.url)).map w.scrape).filter
          (fun t => 50 < t.length)) = "")
    (hgen : (generateWithAutoPick w.upstream).1 = .ok g) :
    (handler ⟨"POST", some name, some gk, some mk⟩ w).status = 200 ∧
    (handler ⟨"POST", some name, some gk, some mk⟩ w).report
      = some (jsTrim g.text) ∧
    (handler ⟨"POST", some name, some gk, some mk⟩ w).cached = some false ∧
    (handler ⟨"POST", some name, some gk, some mk⟩ w).acquiredToken = none ∧
    (handler ⟨"POST", some name, some gk, some mk⟩ w).releaseAttempted
      = false ∧
    (handler ⟨"POST", some name, some gk, some mk⟩ w).store = w.store := by
  rw [handler_valid name gk mk w h1 h2 h3,
    tryBlock_rateLimited w name cfg amsg hcfg haf hrl,
    cachePhase_fault w _ none w.store cfg cmsg hcfg hcf,
    newsPhase_toGen w _ none w.store arts hg hlen hcomb,
    genPhase_ok_setFault w _ none w.store _ g cfg smsg hgen hcfg hsf,
    finallyRelease_none _ _ _ rfl]
  exact ⟨rfl, rfl, rfl, rfl, rfl, rfl⟩

/-- Witness for the amended C5: a concrete world whose KV backend fails
everywhere with a rate-limit message; the request still completes. -/
theorem C5_rateLimit_degrades_witness :
    (handler reqAcme
      { worldHealthy with
          acquireFault := some "ERR max daily request limit exceeded",
          cacheGetFault := some "ERR max daily request limit exceeded",
          cacheSetFault := some "ERR max daily request limit exceeded" }).status
      = 200 ∧
    (handler reqAcme
      { worldHealthy with
          acquireFault := some "ERR max daily request limit exceeded",
          cacheGetFault := some "ERR max daily request limit exceeded",
          cacheSetFault := some "ERR max daily request limit exceeded" }).cached
      = some false ∧
    (handler reqAcme
      { worldHealthy with
          acquireFault := some "ERR max daily request limit exceeded",
          cacheGetFault := some "ERR max daily request limit exceeded",
          cacheSetFault := some "ERR max daily request limit exceeded" }).acquiredToken
      = none := by
  have h := C5_rateLimit_degrades
    { worldHealthy with
        acquireFault := some "ERR max daily request limit exceeded",
        cacheGetFault := some "ERR max daily request limit exceeded",
        cacheSetFault := some "ERR max daily request limit exceeded" }
    "Acme Corp" "g" "k" "ERR max daily request limit exceeded"
    "ERR max daily request limit exceeded"
    "ERR max daily request limit exceeded" ⟨"https://kv", "tok"⟩
    [⟨"http://a"⟩] ⟨.v1beta, "gemini-2.0-flash", "  REPORT TEXT  "⟩
    (by decide) (by decide) (by decide) (by decide) rfl (by decide) rfl rfl
    rfl (by decide) (by decide) rfl
  exact ⟨h.1, h.2.2.1, h.2.2.2.1⟩

/-! ## C4 — cache hit short-circuit and idempotence -/

/-- Cache hit: with the lock free and a non-blank value cached under the
subject's report key, the handler returns exactly that trimmed value tagged
cached, making no news-search, scraping or generation call. -/
theorem handler_cache_hit (w : HandlerWorld) (name gk mk c : String)
    (cfg : KvConfig)
    (h1 : (jsTrim name).isEmpty = false) (h2 : gk.isEmpty = false)
    (h3 : mk.isEmpty = false)
    (hcfg : getKvConfig w.env = some cfg) (haf : w.acquireFault = none)
    (hfree : lookupStore w.store ("lock:report:" ++ normalizeCompanyKey name)
      = none)
    (hcgf : w.cacheGetFault = none)
    (hc : lookupStore w.store ("report:" ++ normalizeCompanyKey name)
      = some c)
    (hne : (jsTrim c).isEmpty = false) :
    (handler ⟨"POST", some name, some gk, some mk⟩ w).status = 200 ∧
    (handler ⟨"POST", some name, some gk, some mk⟩ w).report
      = some (jsTrim c) ∧
    (handler ⟨"POST", some name, some gk, some mk⟩ w).cached = some true ∧
    (handler ⟨"POST", some name, some gk, some mk⟩ w).calledGnews = false ∧
    (handler ⟨"POST", some name, some gk, some mk⟩ w).scrapedUrls = [] ∧
    (handler ⟨"POST", some name, some gk, some mk⟩ w).calledGen = false := by
  have hnlkc : ¬("lock:report:" ++ normalizeCompanyKey name)
      = ("report:" ++ normalizeCompanyKey name) :=
    fun h => reportKey_ne_lockKey (normalizeCompanyKey name) h.symm
  have hlook : lookupStore
      (insertKey w.store ("lock:report:" ++ normalizeCompanyKey name) w.token)
      ("report:" ++ normalizeCompanyKey name) = some c := by
    rw [lookupStore_insert_ne _ _ _ _ hnlkc]
    exact hc
  rw [handler_valid name gk mk w h1 h2 h3,
    tryBlock_acquired w name cfg hcfg haf hfree,
    cachePhase_hit w ("report:" ++ normalizeCompanyKey name) (some w.token)
      (insertKey w.store ("lock:report:" ++ normalizeCompanyKey name) w.token)
      c cfg hcfg hcgf hlook hne]
  exact ⟨(finallyRelease_fields _ _ _).1.trans rfl,
    (finallyRelease_fields _ _ _).2.1.trans rfl,
    (finallyRelease_fields _ _ _).2.2.1.trans rfl,
    (finallyRelease_fields _ _ _).2.2.2.2.2.2.1.trans rfl,
    (finallyRelease_fields _ _ _).2.2.2.2.2.2.2.1.trans rfl,
    (finallyRelease_fields _ _ _).2.2.2.2.2.2.2.2.1.trans rfl⟩

/-- Full generation run under a healthy configured backend: the handler
answers 200 with the freshly generated (trimmed) report, caches it under the
report key, and releases the lock. -/
theorem handler_generates (w : HandlerWorld) (name gk mk : String)
    (cfg : KvConfig) (arts : List Article) (g : GenOk)
    (h1 : (jsTrim name).isEmpty = false) (h2 : gk.isEmpty = false)
    (h3 : mk.isEmpty = false)
    (hcfg : getKvConfig w.env = some cfg)
    (haf : w.acquireFault = none) (hcgf : w.cacheGetFault = none)
    (hsf : w.cacheSetFault = none)
    (hrgf : w.releaseGetFault = none) (hrdf : w.releaseDelFault = none)
    (htok : w.token.isEmpty = false)
    (hfree : lookupStore w.store ("lock:report:" ++ normalizeCompanyKey name)
      = none)
    (hmiss : lookupStore w.store ("report:" ++ normalizeCompanyKey name)
      = none)
    (hg : w.gnews = .ok arts) (hlen : ¬arts.length = 0)
    (hcomb : ¬String.intercalate "\n\n---\n\n"
        (((arts.map (fun a => a.url)).map w.scrape).filter
          (fun t => 50 < t.length)) = "")
    (hgen : (generateWithAutoPick w.upstream).1 = .ok g) :
    handler ⟨"POST", some name, some gk, some mk⟩ w =
      { status := 200,
        store := eraseKey
          (insertKey
            (insertKey w.store ("lock:report:" ++ normalizeCompanyKey name)
              w.token)
            ("report:" ++ normalizeCompanyKey name) (jsTrim g.text))
          ("lock:report:" ++ normalizeCompanyKey name),
        report := some (jsTrim g.text), cached := some false, errMsg := none,
        acquiredToken := some w.token, calledCacheGet := true,
        calledGnews := true, scrapedUrls := arts.map (fun a => a.url),
        calledGen := true, calledCacheSet := true,
        releaseAttempted := true } := by
  have hnckl : ¬("report:" ++ normalizeCompanyKey name)
      = ("lock:report:" ++ normalizeCompanyKey name) :=
    reportKey_ne_lockKey (normalizeCompanyKey name)
  have hnlkc : ¬("lock:report:" ++ normalizeCompanyKey name)
      = ("report:" ++ normalizeCompanyKey name) := fun h => hnckl h.symm
  have hlook1 : lookupStore
      (insertKey w.store ("lock:report:" ++ normalizeCompanyKey name) w.token)
      ("report:" ++ normalizeCompanyKey name) = none := by
    rw [lookupStore_insert_ne _ _ _ _ hnlkc]
    exact hmiss
  have hcur : lookupStore
      (insertKey
        (insertKey w.store ("lock:report:" ++ normalizeCompanyKey name)
          w.token)
        ("report:" ++ normalizeCompanyKey name) (jsTrim g.text))
      ("lock:report:" ++ normalizeCompanyKey name) = some w.token := by
    rw [lookupStore_insert_ne _ _ _ _ hnckl]
    exact lookupStore_insert_self _ _ _
  have hrel : releaseLock w.env w.releaseGetFault w.releaseDelFault
      (insertKey
        (insertKey w.store ("lock:report:" ++ normalizeCompanyKey name)
          w.token)
        ("report:" ++ normalizeCompanyKey name) (jsTrim g.text))
      ("lock:report:" ++ normalizeCompanyKey name) w.token =
      .ok (eraseKey
        (insertKey
          (insertKey w.store ("lock:report:" ++ normalizeCompanyKey name)
            w.token)
          ("report:" ++ normalizeCompanyKey name) (jsTrim g.text))
        ("lock:report:" ++ normalizeCompanyKey name)) := by
    rw [hrgf, hrdf]
    exact releaseLock_owner w.env cfg _ _ _ hcfg hcur
  rw [handler_valid name gk mk w h1 h2 h3,
    tryBlock_acquired w name cfg hcfg haf hfree,
    cachePhase_miss w ("report:" ++ normalizeCompanyKey name) (some w.token)
      (insertKey w.store ("lock:report:" ++ normalizeCompanyKey name) w.token)
      cfg hcfg hcgf hlook1,
    newsPhase_toGen w ("report:" ++ normalizeCompanyKey name) (some w.token)
      (insertKey w.store ("lock:report:" ++ normalizeCompanyKey name) w.token)
      arts hg hlen hcomb,
    genPhase_ok w ("report:" ++ normalizeCompanyKey name) (some w.token)
      (insertKey w.store ("lock:report:" ++ normalizeCompanyKey name) w.token)
      (arts.map (fun a => a.url)) g cfg hgen hcfg hsf,
    finallyRelease_some_ok w ("lock:report:" ++ normalizeCompanyKey name) _
      w.token _ rfl htok hrel]

/-- C4: whenever the cache holds a non-blank value at the normalized
subject's report key (and the handler reaches the cache read), analyze
returns exactly that trimmed cached text tagged `cached := true` with no
news-search, scraping or generation call; consequently, running analyze
twice in sequence — the first run generating and caching — makes the second
run return the identical report text, tagged cache-derived, again with no
upstream calls. -/
theorem C4_cache_hit_idempotent :
    (∀ (w : HandlerWorld) (name gk mk c : String) (cfg : KvConfig),
      (jsTrim name).isEmpty = false → gk.isEmpty = false →
      mk.isEmpty = false →
      getKvConfig w.env = some cfg → w.acquireFault = none →
      lookupStore w.store ("lock:report:" ++ normalizeCompanyKey name)
        = none →
      w.cacheGetFault = none →
      lookupStore w.store ("report:" ++ normalizeCompanyKey name) = some c →
      (jsTrim c).isEmpty = false →
      (handler ⟨"POST", some name, some gk, some mk⟩ w).status = 200 ∧
      (handler ⟨"POST", some name, some gk, some mk⟩ w).report
        = some (jsTrim c) ∧
      (handler ⟨"POST", some name, some gk, some mk⟩ w).cached = some true ∧
      (handler ⟨"POST", some name, some gk, some mk⟩ w).calledGnews = false ∧
      (handler ⟨"POST", some name, some gk, some mk⟩ w).scrapedUrls = [] ∧
      (handler ⟨"POST", some name, some gk, some mk⟩ w).calledGen = false) ∧
    (∀ (w : HandlerWorld) (name gk mk : String) (cfg : KvConfig)
        (arts : List Article) (g : GenOk),
      (jsTrim name).isEmpty = false → gk.isEmpty = false →
      mk.isEmpty = false →
      getKvConfig w.env = some cfg →
      w.acquireFault = none → w.cacheGetFault = none →
      w.cacheSetFault = none →
      w.releaseGetFault = none → w.releaseDelFault = none →
      w.token.isEmpty = false →
      lookupStore w.store ("lock:report:" ++ normalizeCompanyKey name)
        = none →
      lookupStore w.store ("report:" ++ normalizeCompanyKey name) = none →
      w.gnews = .ok arts → ¬arts.length = 0 →
      ¬String.intercalate "\n\n---\n\n"
          (((arts.map (fun a => a.url)).map w.scrape).filter
            (fun t => 50 < t.length)) = "" →
      (generateWithAutoPick w.upstream).1 = .ok g →
      (handler ⟨"POST", some name, some gk, some mk⟩ w).status = 200 ∧
      (handler ⟨"POST", some name, some gk, some mk⟩ w).report
        = some (jsTrim g.text) ∧
      (handler ⟨"POST", some name, some gk, some mk⟩ w).cached
        = some false ∧
      (handler ⟨"POST", some name, some gk, some mk⟩
          { w with store :=
              (handler ⟨"POST", some name, some gk, some mk⟩ w).store }).status
        = 200 ∧
      (handler ⟨"POST", some name, some gk, some mk⟩
          { w with store :=
              (handler ⟨"POST", some name, some gk, some mk⟩ w).store }).report
        = (handler ⟨"POST", some name, some gk, some mk⟩ w).report ∧
      (handler ⟨"POST", some name, some gk, some mk⟩
          { w with store :=
              (handler ⟨"POST", some name, some gk, some mk⟩ w).store }).cached
        = some true ∧
      (handler ⟨"POST", some name, some gk, some mk⟩
          { w with store :=
              (handler ⟨"POST", some name, some gk, some mk⟩ w).store }).calledGnews
        = false ∧
      (handler ⟨"POST", some name, some gk, some mk⟩
          { w with store :=
              (handler ⟨"POST", some name, some gk, some mk⟩ w).store }).calledGen
        = false) := by
  constructor
  · intro w name gk mk c cfg h1 h2 h3 hcfg haf hfree hcgf hc hne
    exact handler_cache_hit w name gk mk c cfg h1 h2 h3 hcfg haf hfree hcgf
      hc hne
  · intro w name gk mk cfg arts g h1 h2 h3 hcfg haf hcgf hsf hrgf hrdf htok
      hfree hmiss hg hlen hcomb hgen
    have hnckl : ¬("report:" ++ normalizeCompanyKey name)
        = ("lock:report:" ++ normalizeCompanyKey name) :=
      reportKey_ne_lockKey (normalizeCompanyKey name)
    have hnlkc : ¬("lock:report:" ++ normalizeCompanyKey name)
        = ("report:" ++ normalizeCompanyKey name) := fun h => hnckl h.symm
    have hr1 := handler_generates w name gk mk cfg arts g h1 h2 h3 hcfg haf
      hcgf hsf hrgf hrdf htok hfree hmiss hg hlen hcomb hgen
    have hfree2 : lookupStore
        (({ w with store :=
            (handler ⟨"POST", some name, some gk, some mk⟩ w).store } :
          HandlerWorld)).store
        ("lock:report:" ++ normalizeCompanyKey name) = none := by
      rw [hr1]
      exact lookupStore_erase_self _ _
    have hc2 : lookupStore
        (({ w with store :=
            (handler ⟨"POST", some name, some gk, some mk⟩ w).store } :
          HandlerWorld)).store
        ("report:" ++ normalizeCompanyKey name) = some (jsTrim g.text) := by
      rw [hr1]
      show lookupStore
        (eraseKey
          (insertKey
            (insertKey w.store ("lock:report:" ++ normalizeCompanyKey name)
              w.token)
            ("report:" ++ normalizeCompanyKey name) (jsTrim g.text))
          ("lock:report:" ++ normalizeCompanyKey name))
        ("report:" ++ normalizeCompanyKey name) = some (jsTrim g.text)
      rw [lookupStore_erase_ne _ _ _ hnlkc]
      exact lookupStore_insert_self _ _ _
    have hne2 : (jsTrim (jsTrim g.text)).isEmpty = false := by
      rw [jsTrim_idem]
      exact generateWithAutoPick_ok_trim w.upstream g hgen
    have hch := handler_cache_hit
      { w with store :=
          (handler ⟨"POST", some name, some gk, some mk⟩ w).store }
      name gk mk (jsTrim g.text) cfg h1 h2 h3 hcfg haf hfree2 hcgf hc2 hne2
    refine ⟨?_, ?_, ?_, hch.1, ?_, hch.2.2.1, hch.2.2.2.1, hch.2.2.2.2.2⟩
    · rw [hr1]
    · rw [hr1]
    · rw [hr1]
    · exact hch.2.1.trans (by rw [jsTrim_idem, hr1])

/-- Witness for C4 (cache-hit half) at a concrete world holding a live
cached report for `acmecorp`. -/
theorem C4_cache_hit_idempotent_witness :
    (handler reqAcme
        { worldHealthy with store := [("report:acmecorp", "CACHED")] }).status
      = 200 ∧
    (handler reqAcme
        { worldHealthy with store := [("report:acmecorp", "CACHED")] }).report
      = some (jsTrim "CACHED") ∧
    (handler reqAcme
        { worldHealthy with store := [("report:acmecorp", "CACHED")] }).cached
      = some true ∧
    (handler reqAcme
        { worldHealthy with store := [("report:acmecorp", "CACHED")] }).calledGnews
      = false ∧
    (handler reqAcme
        { worldHealthy with store := [("report:acmecorp", "CACHED")] }).scrapedUrls
      = [] ∧
    (handler reqAcme
        { worldHealthy with store := [("report:acmecorp", "CACHED")] }).calledGen
      = false :=
  C4_cache_hit_idempotent.1
    { worldHealthy with store := [("report:acmecorp", "CACHED")] }
    "Acme Corp" "g" "k" "CACHED" ⟨"https://kv", "tok"⟩
    (by decide) (by decide) (by decide) (by decide) rfl (by decide) rfl
    (by decide) (by decide)

end MarketAnalyst
